import Mathlib

set_option maxRecDepth 8000

/-!
Verification development for the master-data-sync repository.

Shallow embedding of the data-synchronization scripts:
the relational store is modelled as lists of rows, surrogate keys as
natural numbers drawn from a counter, nullable CSV and store fields as
Option values, and the per-row loops as folds over lists of records.
Each model definition is translated from the named Python function.
-/

/-! ## convert_prices_to_usd_price.py -/

/-- A row of the raw_material_prices table
(convert_prices_to_usd_price.py, class RawMaterialPrice).
price is a nullable numeric column, modelled as Option Rat. -/
structure PriceRecord where
  uuid : Nat
  raw_material_id : Nat
  price : Option Rat
  price_in_usd : Option Rat
deriving DecidableEq, Repr

/-- The body of the per-record loop of update_price_in_usd
(convert_prices_to_usd_price.py lines 102-111): the conversion runs only
under the Python truthiness test on price_record.price, which is false for
a SQL NULL (None) and for a zero price; otherwise price_in_usd is set to
1 / price. -/
def processPriceRecord (r : PriceRecord) : PriceRecord :=
  match r.price with
  | none => r
  | some p => if p = 0 then r else { r with price_in_usd := some (1 / p) }

/-- The store visible to convert_prices_to_usd_price.py: api_sources as
(uuid, name), raw_materials as (uuid, api_source), and prices. -/
structure PriceDb where
  apiSources : List (Nat × String)
  rawMaterials : List (Nat × Option Nat)
  prices : List PriceRecord
deriving DecidableEq, Repr

/-- get_raw_materials of convert_prices_to_usd_price.py: the raw materials
whose api_source column equals the given source uuid. -/
def rawMaterialsOf (db : PriceDb) (srcUuid : Nat) : List (Nat × Option Nat) :=
  db.rawMaterials.filter (fun m => m.2 == some srcUuid)

/-- The uuids of the raw materials of a source (raw_material_ids in
update_price_in_usd). -/
def rawMaterialIdsOf (db : PriceDb) (srcUuid : Nat) : List Nat :=
  (rawMaterialsOf db srcUuid).map (fun m => m.1)

/-- get_raw_material_prices of convert_prices_to_usd_price.py: the price
records whose raw_material_id is among the given ids. -/
def pricesOf (db : PriceDb) (ids : List Nat) : List PriceRecord :=
  db.prices.filter (fun p => ids.contains p.raw_material_id)

/-- update_price_in_usd (convert_prices_to_usd_price.py lines 68-121):
look up the api source named Metals API, select the raw materials having
that source, select their price records, update each selected record
through processPriceRecord, and commit.  The session accumulates the
updates and the commit applies them atomically; commitFails = true models
a SQLAlchemyError raised during the database operation, whose handler
rolls the session back (leaving the store unchanged) and returns. -/
def updatePriceInUsd (db : PriceDb) (commitFails : Bool) : PriceDb :=
  match db.apiSources.find? (fun s => s.2 == "Metals API") with
  | none => db
  | some src =>
    if (rawMaterialsOf db src.1).isEmpty then db
    else if (pricesOf db (rawMaterialIdsOf db src.1)).isEmpty then db
    else if commitFails then db
    else { db with prices := db.prices.map (fun p =>
            if (rawMaterialIdsOf db src.1).contains p.raw_material_id then
              processPriceRecord p
            else p) }

/-- C9: division guard in USD conversion.  A record whose price is NULL or
zero is left unchanged by the conversion loop (so the division 1 / price is
never evaluated at zero), and a record with a non-null non-zero price gets
price_in_usd set to 1 / price; records with NULL or zero price survive a
full run of update_price_in_usd unchanged. -/
theorem c9_division_guard (r : PriceRecord) :
    (r.price = none → processPriceRecord r = r) ∧
    (r.price = some 0 → processPriceRecord r = r) ∧
    (∀ p : Rat, r.price = some p → p ≠ 0 →
      processPriceRecord r = { r with price_in_usd := some (1 / p) }) ∧
    (∀ db : PriceDb, r ∈ db.prices → (r.price = none ∨ r.price = some 0) →
      r ∈ (updatePriceInUsd db false).prices) := by
  refine ⟨?_, ?_, ?_, ?_⟩
  · intro h; simp [processPriceRecord, h]
  · intro h; simp [processPriceRecord, h]
  · intro p hp hne; simp [processPriceRecord, hp, hne]
  · intro db hmem hnull
    have hfix : processPriceRecord r = r := by
      rcases hnull with h | h <;> simp [processPriceRecord, h]
    unfold updatePriceInUsd
    cases hfind : db.apiSources.find? (fun s => s.2 == "Metals API") with
    | none => simpa using hmem
    | some src =>
      by_cases h1 : (rawMaterialsOf db src.1).isEmpty
      · simp only [h1, if_true]; exact hmem
      · by_cases h2 : (pricesOf db (rawMaterialIdsOf db src.1)).isEmpty
        · simp only [h1, h2, if_true, if_false, Bool.false_eq_true]; exact hmem
        · simp only [h1, h2, if_false, Bool.false_eq_true, List.mem_map]
          refine ⟨r, hmem, ?_⟩
          split <;> simp [hfix]

/-- Witness for c9_division_guard at a concrete record. -/
theorem c9_division_guard_witness :
    processPriceRecord { uuid := 0, raw_material_id := 0, price := some 0, price_in_usd := none } =
      { uuid := 0, raw_material_id := 0, price := some 0, price_in_usd := none } :=
  (c9_division_guard { uuid := 0, raw_material_id := 0, price := some 0, price_in_usd := none }).2.1 rfl

/-! ## commodity_price_fetch.py (and raw_materials/commodity_price_fetch.py) -/

/-- One iteration chain of the 30-day chunking while loop in main
(commodity_price_fetch.py lines 159-192; identically
raw_materials/commodity_price_fetch.py lines 208-237).  Dates are days as
integers.  Each iteration requests the chunk from current_start_date to
min (current_start_date + 30) end_date and then advances current_start_date
to that chunk end.  The fuel argument bounds the number of iterations;
chunks supplies fuel (e - s).toNat, which the invariant proofs show is
always sufficient, so the fuel-free while loop computes the same list. -/
def chunksAux : Nat → Int → Int → List (Int × Int)
  | 0, _, _ => []
  | fuel + 1, s, e =>
    if s < e then
      (s, min (s + 30) e) :: chunksAux fuel (min (s + 30) e) e
    else []

/-- The full list of (formatted_start_date, formatted_end_date) chunks the
while loop of main requests for a date range. -/
def chunks (s e : Int) : List (Int × Int) :=
  chunksAux (e - s).toNat s e

theorem chunksAux_stop (fuel : Nat) (s e : Int) (h : ¬ s < e) :
    chunksAux fuel s e = [] := by
  cases fuel with
  | zero => rfl
  | succ n => simp [chunksAux, h]

theorem chunksAux_spec (fuel : Nat) : ∀ s e : Int, (e - s).toNat ≤ fuel → s < e →
    chunksAux fuel s e ≠ [] ∧
    (∀ p ∈ chunksAux fuel s e, p.1 < p.2 ∧ p.2 - p.1 ≤ 30 ∧ s ≤ p.1 ∧ p.2 ≤ e) ∧
    (∀ d : Int, s ≤ d → d ≤ e → ∃ p ∈ chunksAux fuel s e, p.1 ≤ d ∧ d ≤ p.2) ∧
    (chunksAux fuel s e).head?.map Prod.fst = some s ∧
    ((chunksAux fuel s e).getLast?.map Prod.snd = some e) ∧
    List.Chain' (fun p q => p.2 = q.1) (chunksAux fuel s e) := by
  induction fuel with
  | zero =>
    intro s e hfuel hlt
    exfalso; omega
  | succ n ih =>
    intro s e hfuel hlt
    by_cases hend : s + 30 < e
    · have hmin : min (s + 30) e = s + 30 := by omega
      have hfuel2 : (e - (s + 30)).toNat ≤ n := by omega
      have hlt2 : s + 30 < e := hend
      obtain ⟨hne, hbnd, hcov, hhead, hlast, hchain⟩ := ih (s + 30) e hfuel2 hlt2
      have heq : chunksAux (n + 1) s e = (s, s + 30) :: chunksAux n (s + 30) e := by
        simp [chunksAux, hlt, hmin]
      rw [heq]
      refine ⟨by simp, ?_, ?_, ?_, ?_, ?_⟩
      · intro p hp
        rcases List.mem_cons.mp hp with h | h
        · subst h; constructor <;> [omega; constructor] <;> [omega; constructor] <;> omega
        · obtain ⟨h1, h2, h3, h4⟩ := hbnd p h
          exact ⟨h1, h2, by omega, h4⟩
      · intro d hd1 hd2
        by_cases hd3 : d ≤ s + 30
        · exact ⟨(s, s + 30), List.mem_cons_self _ _, hd1, hd3⟩
        · obtain ⟨p, hp, h1, h2⟩ := hcov d (by omega) hd2
          exact ⟨p, List.mem_cons_of_mem _ hp, h1, h2⟩
      · simp
      · cases htail : chunksAux n (s + 30) e with
        | nil => exact absurd htail hne
        | cons a l =>
          rw [htail] at hlast
          simpa [List.getLast?_cons_cons] using hlast
      · rw [List.chain'_cons']
        refine ⟨?_, hchain⟩
        intro b hb
        cases htail : chunksAux n (s + 30) e with
        | nil => rw [htail] at hb; simp at hb
        | cons a l =>
          rw [htail] at hb hhead
          simp at hb hhead
          rw [← hb]
          simp [hhead]
    · have hmin : min (s + 30) e = e := by omega
      have heq : chunksAux (n + 1) s e = [(s, e)] := by
        have hstop : chunksAux n e e = [] := chunksAux_stop n e e (by omega)
        simp [chunksAux, hlt, hmin, hstop]
      rw [heq]
      refine ⟨by simp, ?_, ?_, by simp, by simp, by simp⟩
      · intro p hp
        simp at hp
        subst hp
        refine ⟨hlt, by omega, le_refl _, le_refl _⟩
      · intro d hd1 hd2
        exact ⟨(s, e), by simp, hd1, hd2⟩

/-- C10: the 30-day chunking loop of the price-fetch main terminates for
every start date strictly before the end date (the fuel (e - s).toNat
bounds its iterations and the produced list is the loop's full request
trace), every requested chunk is nonempty, spans at most 30 days and lies
inside the range, the chunks cover every date of the range, the first
chunk starts at the start date, the last chunk ends at the end date, and
each chunk's end date equals the next chunk's start date, so every
interior boundary date is requested in two consecutive chunks. -/
theorem c10_chunked_date_loop (s e : Int) (h : s < e) :
    chunks s e ≠ [] ∧
    (∀ p ∈ chunks s e, p.1 < p.2 ∧ p.2 - p.1 ≤ 30 ∧ s ≤ p.1 ∧ p.2 ≤ e) ∧
    (∀ d : Int, s ≤ d → d ≤ e → ∃ p ∈ chunks s e, p.1 ≤ d ∧ d ≤ p.2) ∧
    (chunks s e).head?.map Prod.fst = some s ∧
    ((chunks s e).getLast?.map Prod.snd = some e) ∧
    List.Chain' (fun p q => p.2 = q.1) (chunks s e) :=
  chunksAux_spec (e - s).toNat s e (le_refl _) h

/-- Witness for c10_chunked_date_loop on the concrete range 0 to 65. -/
theorem c10_chunked_date_loop_witness :
    (0 : Int) < 65 ∧ chunks 0 65 ≠ [] ∧ chunks 0 65 = [(0, 30), (30, 60), (60, 65)] :=
  ⟨by decide, (c10_chunked_date_loop 0 65 (by decide)).1, by decide⟩

/-! ## commodities_update.py -/

/-- A row of the api_sources table (commodities_update.py, class ApiSource). -/
structure ApiSourceRow where
  name : String
  url : String
deriving DecidableEq, Repr

/-- Outcome of the module-level startup code of commodities_update.py:
either the process exits with a code and a printed message before any load
work, or it proceeds to the symbol-update load with the constructed API
url. -/
inductive CliOutcome
  | exitWith (code : Nat) (msg : String)
  | proceed (apiUrl : String)
deriving DecidableEq, Repr

/-- The usage message printed by commodities_update.py when the argument
count is wrong. -/
def usageMsg : String := "Usage: python3 commodities_update.py <API Source Name>"

/-- Module-level argument validation of commodities_update.py
(lines 67-95): exit 1 with a usage message unless sys.argv has exactly the
program name and one source-name argument; look the named source up in
api_sources and exit 1 if absent; select the API key by the lowercased
source name, exiting 1 on an unknown name; otherwise construct the symbols
url and continue to the load. -/
def commoditiesUpdateStartup (argv : List String) (sources : List ApiSourceRow)
    (commoditiesKey metalKey : String) : CliOutcome :=
  match argv with
  | [_prog, nm] =>
    match sources.find? (fun s => s.name == nm) with
    | none => CliOutcome.exitWith 1 ("API source not found: " ++ nm)
    | some src =>
      if nm.toLower == "commodities api" then
        CliOutcome.proceed (src.url ++ "/api/symbols?access_key=" ++ commoditiesKey)
      else if nm.toLower == "metal api" then
        CliOutcome.proceed (src.url ++ "/api/symbols?access_key=" ++ metalKey)
      else CliOutcome.exitWith 1 ("Unknown API source: " ++ nm)
  | _ => CliOutcome.exitWith 1 usageMsg

/-- C8: CLI failure behavior of commodities_update.py.  If the argument
count is not exactly one source-name argument the startup exits with the
usage message and status 1; if the named source is not found in the store
the startup exits with an error message and status 1.  In both cases the
outcome is an exitWith constructor with a non-zero code, never the proceed
constructor that performs the load. -/
theorem c8_cli_failure (argv : List String) (sources : List ApiSourceRow)
    (ck mk : String) :
    (argv.length ≠ 2 →
      commoditiesUpdateStartup argv sources ck mk = CliOutcome.exitWith 1 usageMsg ∧ (1 : Nat) ≠ 0) ∧
    (∀ prog nm, argv = [prog, nm] →
      sources.find? (fun s => s.name == nm) = none →
      commoditiesUpdateStartup argv sources ck mk =
        CliOutcome.exitWith 1 ("API source not found: " ++ nm) ∧ (1 : Nat) ≠ 0) := by
  constructor
  · intro hlen
    refine ⟨?_, by decide⟩
    match argv with
    | [] => rfl
    | [a] => rfl
    | [a, b] => exact absurd rfl hlen
    | a :: b :: c :: rest => rfl
  · intro prog nm hargv hfind
    subst hargv
    refine ⟨?_, by decide⟩
    simp [commoditiesUpdateStartup, hfind]

/-- Witness for c8_cli_failure: missing argument and unknown source on
concrete inputs. -/
theorem c8_cli_failure_witness :
    (commoditiesUpdateStartup ["commodities_update.py"] [] "ck" "mk" =
      CliOutcome.exitWith 1 usageMsg ∧ (1 : Nat) ≠ 0) ∧
    (commoditiesUpdateStartup ["commodities_update.py", "Gone API"] [] "ck" "mk" =
      CliOutcome.exitWith 1 ("API source not found: " ++ "Gone API") ∧ (1 : Nat) ≠ 0) :=
  ⟨(c8_cli_failure ["commodities_update.py"] [] "ck" "mk").1 (by decide),
   (c8_cli_failure ["commodities_update.py", "Gone API"] [] "ck" "mk").2
     "commodities_update.py" "Gone API" rfl (by decide)⟩

/-! ## Python string primitives used by the loaders -/

/-- Python str.strip(): remove leading and trailing whitespace.  Defined
on the character list so that it evaluates inside the kernel. -/
def pyStrip (s : String) : String :=
  ⟨((s.data.dropWhile Char.isWhitespace).reverse.dropWhile Char.isWhitespace).reverse⟩

/-- Helper for pySplitComma: split a character list on commas. -/
def splitCommaAux : List Char → List (List Char)
  | [] => [[]]
  | c :: cs =>
    let rest := splitCommaAux cs
    if c = ',' then [] :: rest
    else
      match rest with
      | [] => [[c]]
      | h :: t => (c :: h) :: t

/-- Python s.split(str): the comma case used by
insert_ports_route_junction_table. -/
def pySplitComma (s : String) : List String :=
  (splitCommaAux s.data).map (fun l => ⟨l⟩)

/-- Python s.isspace(): non-empty and all whitespace. -/
def pyIsSpace (s : String) : Bool :=
  !s.data.isEmpty && s.data.all Char.isWhitespace

/-! ## raw_material_importer_script.py -/

/-- drop_duplicates keeping the first occurrence, as pandas
DataFrame.drop_duplicates does; seen accumulates the rows already kept. -/
def dedupAux {α : Type} [BEq α] (seen : List α) : List α → List α
  | [] => []
  | a :: as => if seen.contains a then dedupAux seen as else a :: dedupAux (a :: seen) as

/-- A source record as a mapping of column name to value; none models a
pandas NaN (missing value). -/
abbrev RawRow := List (String × Option String)

/-- A cleaned record and a stored supabase row: column name to string
value. -/
abbrev CleanRow := List (String × String)

/-- cleaned_row_dict of insert_data_into_table
(raw_material_importer_script.py line 25): keep the entries whose value is
neither NaN nor the empty string and apply str(v).strip() to each kept
value.  The emptiness test runs on the raw value, before stripping, as in
the source. -/
def cleanedRowDict (row : RawRow) : CleanRow :=
  row.filterMap (fun p =>
    match p.2 with
    | none => none
    | some v => if v == "" then none else some (p.1, (pyStrip v)))

/-- Column access on a cleaned or stored row. -/
def lookupCol (d : CleanRow) (c : String) : Option String :=
  (d.find? (fun p => p.1 == c)).map (fun p => p.2)

/-- Building the duplicate-check query of insert_data_into_table
(raw_material_importer_script.py lines 36-38): for each unique column, read
cleaned_row_dict[column].  A missing column raises a Python KeyError, which
nothing in the function catches; the wrong-loop continue on lines 31-33
only logs and does not skip the row, so the access is still reached. -/
def getUniqueVals (d : CleanRow) : List String → Except String (List String)
  | [] => Except.ok []
  | c :: cs =>
    match lookupCol d c with
    | none => Except.error ("KeyError: " ++ c)
    | some v =>
      match getUniqueVals d cs with
      | Except.error e => Except.error e
      | Except.ok vs => Except.ok (v :: vs)

/-- A stored row matches the duplicate-check query when each unique column
holds the queried value. -/
def rowMatchesOn (uniqueCols : List String) (vals : List String) (stored : CleanRow) : Bool :=
  (uniqueCols.zip vals).all (fun cv => lookupCol stored cv.1 == some cv.2)

/-- The per-row body of insert_data_into_table
(raw_material_importer_script.py lines 24-52): clean the row; when unique
columns are given, build the duplicate-check query (raising KeyError on a
missing column), skip the row if a stored row matches, and otherwise
insert; an insert whose response carries no data is only logged, so the
insert itself is modelled as succeeding. -/
def processRowRaw (uniqueCols : List String) (tbl : List CleanRow) (row : RawRow) :
    Except String (List CleanRow) :=
  let cleaned := cleanedRowDict row
  if uniqueCols.isEmpty then Except.ok (tbl ++ [cleaned])
  else
    match getUniqueVals cleaned uniqueCols with
    | Except.error e => Except.error e
    | Except.ok vals =>
      if tbl.any (fun stored => rowMatchesOn uniqueCols vals stored) then Except.ok tbl
      else Except.ok (tbl ++ [cleaned])

/-- The row loop of insert_data_into_table: an uncaught KeyError aborts
the whole loop. -/
def insertRowsRaw (uniqueCols : List String) (tbl : List CleanRow) :
    List RawRow → Except String (List CleanRow)
  | [] => Except.ok tbl
  | r :: rs =>
    match processRowRaw uniqueCols tbl r with
    | Except.error e => Except.error e
    | Except.ok tbl2 => insertRowsRaw uniqueCols tbl2 rs

/-- insert_data_into_table of raw_material_importer_script.py: drop the
all-NaN rows, drop duplicate source rows, then run the per-row loop. -/
def insertDataIntoTableRaw (uniqueCols : List String) (tbl : List CleanRow)
    (rows : List RawRow) : Except String (List CleanRow) :=
  insertRowsRaw uniqueCols tbl
    (dedupAux [] (rows.filter (fun r => !(r.all (fun p => p.2.isNone)))))

/-- C5: a record whose required natural key column is empty reaches the
duplicate-check query of insert_data_into_table with the key absent from
cleaned_row_dict, and the loader raises a KeyError instead of skipping the
record: the continue on line 33 of raw_material_importer_script.py
continues the inner loop over unique_columns (after printing a skip
message), not the row loop, so line 38 still reads the missing key.  The
loader aborts rather than counting the record as skipped. -/
theorem c5_missing_key_raises :
    insertDataIntoTableRaw ["application_name"] [] [[("application_name", some "")]] =
      Except.error ("KeyError: " ++ "application_name") := rfl

/-! ## logistics/logistics_data_importer_script.py, insert_data_into_table -/

/-- The per-row body of the logistics insert_data_into_table
(logistics_data_importer_script.py lines 204-230), specialized to a table
with one unique text column, with an error oracle fails for the store
raising on an insert: strip the value, skip when a stored row already
matches, otherwise insert; an exception from the insert is caught on lines
229-230, printed, and the loop continues, so a failed insert leaves the
table as it was and processing goes on. -/
def insertDataIntoTableLogStep (fails : String → Bool) (tbl : List String) (v : String) :
    List String :=
  if tbl.contains (pyStrip v) then tbl
  else if fails (pyStrip v) then tbl
  else tbl ++ [(pyStrip v)]

/-- The row loop of the logistics insert_data_into_table: every exception
is caught per row, so the enclosing connection.begin() transaction always
reaches its end and commits the accumulated inserts. -/
def insertDataIntoTableLog (fails : String → Bool) (tbl : List String)
    (data : List String) : List String :=
  data.foldl (insertDataIntoTableLogStep fails) tbl

/-- The error oracle of the C4 counterexample: the store raises exactly on
inserting the value B. -/
def c4fails (v : String) : Bool := v == "B"

/-- C4 counterexample: an unexpected store error while inserting B during
a single transactional step of the logistics insert_data_into_table does
not roll the step back: the error is caught per row and the step commits
the rows A and C inserted around the failure, so the store is changed by
the failed step, contradicting the claim that the step's transaction is
rolled back leaving the store unchanged. -/
theorem c4_counterexample :
    c4fails "B" = true ∧
    insertDataIntoTableLog c4fails [] ["A", "B", "C"] = ["A", "C"] ∧
    insertDataIntoTableLog c4fails [] ["A", "B", "C"] ≠ [] := by
  refine ⟨rfl, rfl, by decide⟩

theorem insertDataIntoTableLogStep_mono (fails : String → Bool) (tbl : List String)
    (v a : String) (h : a ∈ tbl) : a ∈ insertDataIntoTableLogStep fails tbl v := by
  unfold insertDataIntoTableLogStep
  split
  · exact h
  · split
    · exact h
    · exact List.mem_append_left _ h

theorem insertDataIntoTableLog_mono (fails : String → Bool) (data : List String) :
    ∀ tbl a, a ∈ tbl → a ∈ insertDataIntoTableLog fails tbl data := by
  induction data with
  | nil => intro tbl a h; exact h
  | cons u rest ih =>
    intro tbl a h
    simp only [insertDataIntoTableLog, List.foldl_cons]
    exact ih _ a (insertDataIntoTableLogStep_mono fails tbl u a h)

/-- C4 amended, part for the logistics loader: every row of the step whose
own insert does not fail ends up committed, whether or not another row of
the same step hit an unexpected store error. -/
theorem insertDataIntoTableLog_commits (fails : String → Bool) (data : List String) :
    ∀ tbl v, v ∈ data → fails (pyStrip v) = false →
      (pyStrip v) ∈ insertDataIntoTableLog fails tbl data := by
  induction data with
  | nil => intro tbl v h; exact absurd h (List.not_mem_nil v)
  | cons u rest ih =>
    intro tbl v hmem hok
    simp only [insertDataIntoTableLog, List.foldl_cons]
    rcases List.mem_cons.mp hmem with h | h
    · subst h
      apply insertDataIntoTableLog_mono
      unfold insertDataIntoTableLogStep
      by_cases hc : tbl.contains (pyStrip v)
      · simp only [hc, if_true]
        exact List.elem_iff.mp hc
      · simp only [hc, hok, if_false, Bool.false_eq_true]
        exact List.mem_append_right _ (List.mem_singleton.mpr rfl)
    · exact ih _ v h hok

/-- C4 amended: in update_price_in_usd a store error does roll the whole
step back (the store is unchanged), the error is printed, and the function
returns normally; but in the logistics insert_data_into_table an
unexpected store error on an insert is caught and printed per row and the
loop continues, so the step is not rolled back: every other non-duplicate
row of the step is still committed alongside the failure. -/
theorem c4_amended :
    (∀ db : PriceDb, updatePriceInUsd db true = db) ∧
    (∀ (fails : String → Bool) (tbl data : List String) (v : String),
      v ∈ data → fails (pyStrip v) = false →
      (pyStrip v) ∈ insertDataIntoTableLog fails tbl data) := by
  constructor
  · intro db
    unfold updatePriceInUsd
    cases db.apiSources.find? (fun s => s.2 == "Metals API") with
    | none => rfl
    | some src =>
      by_cases h1 : (rawMaterialsOf db src.1).isEmpty
      · simp [h1]
      · by_cases h2 : (pricesOf db (rawMaterialIdsOf db src.1)).isEmpty
        · simp [h1, h2]
        · simp [h1, h2]
  · exact fun fails tbl data v h1 h2 => insertDataIntoTableLog_commits fails data tbl v h1 h2

/-- A one-record concrete store for the c4_amended witness. -/
def c4Db : PriceDb :=
  { apiSources := [(0, "Metals API")], rawMaterials := [(1, some 0)],
    prices := [{ uuid := 2, raw_material_id := 1, price := some 4, price_in_usd := none }] }

/-- Witness for c4_amended: a rolled-back update run and a committed
non-failing row next to a failing one. -/
theorem c4_amended_witness :
    updatePriceInUsd c4Db true = c4Db ∧
    "C" ∈ insertDataIntoTableLog c4fails [] ["A", "B", "C"] :=
  ⟨c4_amended.1 c4Db, by
    have h := c4_amended.2 c4fails [] ["A", "B", "C"] "C" (by decide) rfl
    exact h⟩

/-! ## logistics/logistics_data_importer_script.py: cargo-file pipeline -/

/-- A record of cargo_type_choke_points.csv as consumed by main
(logistics_data_importer_script.py lines 765-796).  latitude and longitude
model the post pd.to_numeric(errors=coerce) values, with none for a value
that is missing or non-numeric; the payload columns are strings. -/
structure CargoRow where
  primary_chokepoints : String
  latitude : Option Int
  longitude : Option Int
  vessel_composition_cargo_type : String
  average_annual_number_of_transit_calls : String
  estimated_vessel_numbers_by_cargo_type : String
  vessel_composition_pct : String
deriving DecidableEq, Repr

/-- A stored row of the choke_points table. -/
structure ChokePointRow where
  uuid : Nat
  chokepoint_name : String
  latitude : Int
  longitude : Int
deriving DecidableEq, Repr

/-- A stored row of the cargo_types table. -/
structure CargoTypeRow where
  uuid : Nat
  cargo_type_name : String
deriving DecidableEq, Repr

/-- A stored row of the choke_points_cargo_types junction table.  The
script's metadata declares no unique constraint on
(cargo_type_id, choke_point_id). -/
structure JunctionRow where
  cargo_type_id : Nat
  choke_point_id : Nat
  avg_annual_transit_calls : Option String
  est_vessel_count_by_cargo : Option String
  vessel_composition_pct : Option String
deriving DecidableEq, Repr

/-- The store touched by the cargo-file pipeline, with the counter that
generates surrogate keys. -/
structure LogisticsState where
  chokePoints : List ChokePointRow
  cargoTypes : List CargoTypeRow
  junction : List JunctionRow
  nextUuid : Nat
deriving DecidableEq, Repr

/-- The duplicate-check of the logistics insert_data_into_table for the
choke_points table with unique columns chokepoint_name, latitude,
longitude. -/
def hasChokePoint (l : List ChokePointRow) (nm : String) (la lo : Int) : Bool :=
  l.any (fun r => r.chokepoint_name == nm && r.latitude == la && r.longitude == lo)

/-- One row of the logistics insert_data_into_table for choke_points
(lines 189-230 via insert_choke_points, lines 233-260): values are
stripped, a row whose unique columns already match a stored row is
skipped, otherwise the row is inserted with a fresh surrogate key. -/
def insertChokePointRow (st : LogisticsState) (nm : String) (la lo : Int) : LogisticsState :=
  if hasChokePoint st.chokePoints (pyStrip nm) la lo then st
  else { st with
    chokePoints := st.chokePoints ++
      [{ uuid := st.nextUuid, chokepoint_name := pyStrip nm, latitude := la, longitude := lo }],
    nextUuid := st.nextUuid + 1 }

/-- Fold step for insertChokePoints. -/
def cpStep (st : LogisticsState) (r : String × Int × Int) : LogisticsState :=
  insertChokePointRow st r.1 r.2.1 r.2.2

/-- The to_numeric coercion and dropna(subset=latitude, longitude) of
insert_choke_points (lines 246-250): keep the rows where both coordinates
are numeric. -/
def coercedChokePointRows (rows : List (String × Option Int × Option Int)) :
    List (String × Int × Int) :=
  rows.filterMap (fun r =>
    match r.2.1, r.2.2 with
    | some la, some lo => some (r.1, la, lo)
    | _, _ => none)

/-- insert_choke_points (lines 233-260): coerce and filter the projected
rows, then run the generic duplicate-checking loader. -/
def insertChokePoints (st : LogisticsState) (rows : List (String × Option Int × Option Int)) :
    LogisticsState :=
  (coercedChokePointRows rows).foldl cpStep st

/-- The duplicate-check for the cargo_types table with unique column
cargo_type_name. -/
def hasCargoType (l : List CargoTypeRow) (nm : String) : Bool :=
  l.any (fun r => r.cargo_type_name == nm)

/-- One row of the logistics insert_data_into_table for cargo_types
(lines 263-277). -/
def insertCargoTypeRow (st : LogisticsState) (nm : String) : LogisticsState :=
  if hasCargoType st.cargoTypes (pyStrip nm) then st
  else { st with
    cargoTypes := st.cargoTypes ++ [{ uuid := st.nextUuid, cargo_type_name := pyStrip nm }],
    nextUuid := st.nextUuid + 1 }

/-- insert_cargo_types (lines 263-277). -/
def insertCargoTypes (st : LogisticsState) (rows : List String) : LogisticsState :=
  rows.foldl insertCargoTypeRow st

/-- The foreign-key lookup on choke_points by chokepoint_name
(lines 299-302). -/
def findChokePointUuid (l : List ChokePointRow) (nm : String) : Option Nat :=
  (l.find? (fun r => r.chokepoint_name == nm)).map (fun r => r.uuid)

/-- The foreign-key lookup on cargo_types by cargo_type_name
(lines 304-307). -/
def findCargoTypeUuid (l : List CargoTypeRow) (nm : String) : Option Nat :=
  (l.find? (fun r => r.cargo_type_name == nm)).map (fun r => r.uuid)

/-- The payload conversion str(v).strip() if v else None of lines 325-327:
the Python truthiness test on the raw string sends the empty string to
None. -/
def payloadField (v : String) : Option String :=
  if v == "" then none else some (pyStrip v)

/-- The junction rows built by the loop of insert_choke_points_cargo_types
(lines 290-341): per CSV row, strip both names, resolve both foreign keys,
skip the row if either is missing, and otherwise build the junction row.
The loop reads only choke_points and cargo_types and appends to the
junction table without any duplicate lookup. -/
def junctionRowsFor (cps : List ChokePointRow) (cts : List CargoTypeRow)
    (data : List CargoRow) : List JunctionRow :=
  data.filterMap (fun r =>
    match findChokePointUuid cps (pyStrip r.primary_chokepoints),
          findCargoTypeUuid cts (pyStrip r.vessel_composition_cargo_type) with
    | some cpId, some ctId =>
      some { cargo_type_id := ctId, choke_point_id := cpId,
             avg_annual_transit_calls := payloadField r.average_annual_number_of_transit_calls,
             est_vessel_count_by_cargo := payloadField r.estimated_vessel_numbers_by_cargo_type,
             vessel_composition_pct := payloadField r.vessel_composition_pct }
    | _, _ => none)

/-- insert_choke_points_cargo_types (lines 279-341): append the resolved
junction rows; the loop never consults existing junction rows and the
table metadata carries no unique constraint, so every resolved row is
inserted. -/
def insertChokePointsCargoTypes (st : LogisticsState) (data : List CargoRow) : LogisticsState :=
  { st with junction := st.junction ++ junctionRowsFor st.chokePoints st.cargoTypes data }

/-- The choke-point entity projection of main (lines 773-777):
primary_chokepoints, latitude, longitude with drop_duplicates. -/
def chokePointProjection (data : List CargoRow) : List (String × Option Int × Option Int) :=
  dedupAux [] (data.map (fun r => (r.primary_chokepoints, r.latitude, r.longitude)))

/-- The cargo-type entity projection of main (lines 780-782). -/
def cargoTypeProjection (data : List CargoRow) : List String :=
  dedupAux [] (data.map (fun r => r.vessel_composition_cargo_type))

/-- The full cargo-file load of main (lines 765-796): both entity loads,
then the relationship load. -/
def fullLoad (st : LogisticsState) (data : List CargoRow) : LogisticsState :=
  insertChokePointsCargoTypes
    (insertCargoTypes
      (insertChokePoints st (chokePointProjection data))
      (cargoTypeProjection data))
    data

/-- The single CSV row of the C1 counterexample. -/
def c1Row : CargoRow :=
  { primary_chokepoints := "Suez", latitude := some 1, longitude := some 2,
    vessel_composition_cargo_type := "Oil",
    average_annual_number_of_transit_calls := "10",
    estimated_vessel_numbers_by_cargo_type := "5",
    vessel_composition_pct := "50" }

/-- The empty store. -/
def emptyLogistics : LogisticsState :=
  { chokePoints := [], cargoTypes := [], junction := [], nextUuid := 0 }

/-- C1 counterexample: running the full cargo-file load twice on the same
one-row input duplicates the relationship row.  The first run leaves one
junction row; the second run resolves the same key tuple again and, since
insert_choke_points_cargo_types never looks the tuple up and the table has
no unique constraint in the script's metadata, inserts it a second time,
so the full loader is not idempotent. -/
theorem c1_counterexample :
    (fullLoad emptyLogistics [c1Row]).junction.length = 1 ∧
    (fullLoad (fullLoad emptyLogistics [c1Row]) [c1Row]).junction.length = 2 ∧
    fullLoad (fullLoad emptyLogistics [c1Row]) [c1Row] ≠ fullLoad emptyLogistics [c1Row] := by
  refine ⟨rfl, rfl, by decide⟩

theorem insertChokePointRow_cargoTypes (st : LogisticsState) (nm : String) (la lo : Int) :
    (insertChokePointRow st nm la lo).cargoTypes = st.cargoTypes := by
  unfold insertChokePointRow; split <;> rfl

theorem insertChokePointRow_junction (st : LogisticsState) (nm : String) (la lo : Int) :
    (insertChokePointRow st nm la lo).junction = st.junction := by
  unfold insertChokePointRow; split <;> rfl

theorem cpFold_cargoTypes (rows : List (String × Int × Int)) :
    ∀ st : LogisticsState, (rows.foldl cpStep st).cargoTypes = st.cargoTypes := by
  induction rows with
  | nil => intro st; rfl
  | cons r rest ih =>
    intro st
    simp only [List.foldl_cons]
    rw [ih, cpStep, insertChokePointRow_cargoTypes]

theorem cpFold_junction (rows : List (String × Int × Int)) :
    ∀ st : LogisticsState, (rows.foldl cpStep st).junction = st.junction := by
  induction rows with
  | nil => intro st; rfl
  | cons r rest ih =>
    intro st
    simp only [List.foldl_cons]
    rw [ih, cpStep, insertChokePointRow_junction]

theorem insertCargoTypeRow_chokePoints (st : LogisticsState) (nm : String) :
    (insertCargoTypeRow st nm).chokePoints = st.chokePoints := by
  unfold insertCargoTypeRow; split <;> rfl

theorem insertCargoTypeRow_junction (st : LogisticsState) (nm : String) :
    (insertCargoTypeRow st nm).junction = st.junction := by
  unfold insertCargoTypeRow; split <;> rfl

theorem insertCargoTypes_chokePoints (rows : List String) :
    ∀ st : LogisticsState, (insertCargoTypes st rows).chokePoints = st.chokePoints := by
  induction rows with
  | nil => intro st; rfl
  | cons r rest ih =>
    intro st
    simp only [insertCargoTypes, List.foldl_cons]
    rw [show (rest.foldl insertCargoTypeRow (insertCargoTypeRow st r)) =
          insertCargoTypes (insertCargoTypeRow st r) rest from rfl,
        ih, insertCargoTypeRow_chokePoints]

theorem insertCargoTypes_junction (rows : List String) :
    ∀ st : LogisticsState, (insertCargoTypes st rows).junction = st.junction := by
  induction rows with
  | nil => intro st; rfl
  | cons r rest ih =>
    intro st
    simp only [insertCargoTypes, List.foldl_cons]
    rw [show (rest.foldl insertCargoTypeRow (insertCargoTypeRow st r)) =
          insertCargoTypes (insertCargoTypeRow st r) rest from rfl,
        ih, insertCargoTypeRow_junction]

theorem hasChokePoint_append (l l2 : List ChokePointRow) (nm : String) (la lo : Int)
    (h : hasChokePoint l nm la lo = true) : hasChokePoint (l ++ l2) nm la lo = true := by
  simp only [hasChokePoint, List.any_append, Bool.or_eq_true]
  exact Or.inl h

theorem insertChokePointRow_preserves (st : LogisticsState) (nm' : String) (la' lo' : Int)
    (nm : String) (la lo : Int) (h : hasChokePoint st.chokePoints nm la lo = true) :
    hasChokePoint (insertChokePointRow st nm' la' lo').chokePoints nm la lo = true := by
  unfold insertChokePointRow
  split
  · exact h
  · exact hasChokePoint_append _ _ _ _ _ h

theorem insertChokePointRow_mem (st : LogisticsState) (nm : String) (la lo : Int) :
    hasChokePoint (insertChokePointRow st nm la lo).chokePoints (pyStrip nm) la lo = true := by
  unfold insertChokePointRow
  split
  · assumption
  · simp [hasChokePoint, List.any_append]

theorem cpFold_preserves (rows : List (String × Int × Int)) :
    ∀ (st : LogisticsState) (nm : String) (la lo : Int),
      hasChokePoint st.chokePoints nm la lo = true →
      hasChokePoint ((rows.foldl cpStep st)).chokePoints nm la lo = true := by
  induction rows with
  | nil => intro st nm la lo h; exact h
  | cons r rest ih =>
    intro st nm la lo h
    simp only [List.foldl_cons]
    exact ih _ nm la lo (insertChokePointRow_preserves st r.1 r.2.1 r.2.2 nm la lo h)

theorem cpFold_all_present (rows : List (String × Int × Int)) :
    ∀ (st : LogisticsState) (r : String × Int × Int), r ∈ rows →
      hasChokePoint ((rows.foldl cpStep st)).chokePoints (pyStrip r.1) r.2.1 r.2.2 = true := by
  induction rows with
  | nil => intro st r h; exact absurd h (List.not_mem_nil r)
  | cons u rest ih =>
    intro st r hmem
    simp only [List.foldl_cons]
    rcases List.mem_cons.mp hmem with h | h
    · subst h
      exact cpFold_preserves rest _ _ _ _ (insertChokePointRow_mem st r.1 r.2.1 r.2.2)
    · exact ih _ r h

theorem cpFold_id (rows : List (String × Int × Int)) :
    ∀ st : LogisticsState,
      (∀ r ∈ rows, hasChokePoint st.chokePoints (pyStrip r.1) r.2.1 r.2.2 = true) →
      rows.foldl cpStep st = st := by
  induction rows with
  | nil => intro st _; rfl
  | cons r rest ih =>
    intro st h
    have hstep : cpStep st r = st := by
      unfold cpStep insertChokePointRow
      rw [if_pos (h r (List.mem_cons_self r rest))]
    simp only [List.foldl_cons, hstep]
    exact ih st (fun q hq => h q (List.mem_cons_of_mem r hq))

theorem hasCargoType_append (l l2 : List CargoTypeRow) (nm : String)
    (h : hasCargoType l nm = true) : hasCargoType (l ++ l2) nm = true := by
  simp only [hasCargoType, List.any_append, Bool.or_eq_true]
  exact Or.inl h

theorem insertCargoTypeRow_preserves (st : LogisticsState) (nm' nm : String)
    (h : hasCargoType st.cargoTypes nm = true) :
    hasCargoType (insertCargoTypeRow st nm').cargoTypes nm = true := by
  unfold insertCargoTypeRow
  split
  · exact h
  · exact hasCargoType_append _ _ _ h

theorem insertCargoTypeRow_mem (st : LogisticsState) (nm : String) :
    hasCargoType (insertCargoTypeRow st nm).cargoTypes (pyStrip nm) = true := by
  unfold insertCargoTypeRow
  split
  · assumption
  · simp [hasCargoType, List.any_append]

theorem ctFold_preserves (rows : List String) :
    ∀ (st : LogisticsState) (nm : String),
      hasCargoType st.cargoTypes nm = true →
      hasCargoType (insertCargoTypes st rows).cargoTypes nm = true := by
  induction rows with
  | nil => intro st nm h; exact h
  | cons r rest ih =>
    intro st nm h
    simp only [insertCargoTypes, List.foldl_cons]
    exact ih _ nm (insertCargoTypeRow_preserves st r nm h)

theorem ctFold_all_present (rows : List String) :
    ∀ (st : LogisticsState) (r : String), r ∈ rows →
      hasCargoType (insertCargoTypes st rows).cargoTypes (pyStrip r) = true := by
  induction rows with
  | nil => intro st r h; exact absurd h (List.not_mem_nil r)
  | cons u rest ih =>
    intro st r hmem
    simp only [insertCargoTypes, List.foldl_cons]
    rcases List.mem_cons.mp hmem with h | h
    · subst h
      exact ctFold_preserves rest _ _ (insertCargoTypeRow_mem st r)
    · exact ih _ r h

theorem ctFold_id (rows : List String) :
    ∀ st : LogisticsState,
      (∀ r ∈ rows, hasCargoType st.cargoTypes (pyStrip r) = true) →
      insertCargoTypes st rows = st := by
  induction rows with
  | nil => intro st _; rfl
  | cons r rest ih =>
    intro st h
    have hstep : insertCargoTypeRow st r = st := by
      unfold insertCargoTypeRow
      rw [if_pos (h r (List.mem_cons_self r rest))]
    simp only [insertCargoTypes, List.foldl_cons, hstep]
    exact ih st (fun q hq => h q (List.mem_cons_of_mem r hq))

/-- C1 amended: entity loads are idempotent but the relationship load is
not.  Running the full cargo-file load a second time on the same input
leaves the choke_points and cargo_types tables unchanged (every entity
key is found by the duplicate check and skipped), but appends a second
copy of every junction row whose foreign keys resolve: the resolved
junction rows of the input are inserted again, so the relationship table
grows with each run instead of staying fixed. -/
theorem c1_amended (st : LogisticsState) (data : List CargoRow) :
    (fullLoad (fullLoad st data) data).chokePoints = (fullLoad st data).chokePoints ∧
    (fullLoad (fullLoad st data) data).cargoTypes = (fullLoad st data).cargoTypes ∧
    (fullLoad (fullLoad st data) data).junction =
      (fullLoad st data).junction ++
        junctionRowsFor (fullLoad st data).chokePoints (fullLoad st data).cargoTypes data := by
  have hcp_present : ∀ r ∈ coercedChokePointRows (chokePointProjection data),
      hasChokePoint (fullLoad st data).chokePoints (pyStrip r.1) r.2.1 r.2.2 = true := by
    intro r hr
    show hasChokePoint (insertChokePointsCargoTypes _ _).chokePoints _ _ _ = true
    rw [show (insertChokePointsCargoTypes (insertCargoTypes
          (insertChokePoints st (chokePointProjection data)) (cargoTypeProjection data))
          data).chokePoints =
        (insertCargoTypes (insertChokePoints st (chokePointProjection data))
          (cargoTypeProjection data)).chokePoints from rfl,
       insertCargoTypes_chokePoints]
    exact cpFold_all_present _ st r hr
  have hct_present : ∀ r ∈ cargoTypeProjection data,
      hasCargoType (fullLoad st data).cargoTypes (pyStrip r) = true := by
    intro r hr
    show hasCargoType (insertChokePointsCargoTypes _ _).cargoTypes _ = true
    rw [show (insertChokePointsCargoTypes (insertCargoTypes
          (insertChokePoints st (chokePointProjection data)) (cargoTypeProjection data))
          data).cargoTypes =
        (insertCargoTypes (insertChokePoints st (chokePointProjection data))
          (cargoTypeProjection data)).cargoTypes from rfl]
    exact ctFold_all_present _ _ r hr
  have hcp_id : insertChokePoints (fullLoad st data) (chokePointProjection data) = fullLoad st data :=
    cpFold_id _ _ hcp_present
  have hct_id : insertCargoTypes (fullLoad st data) (cargoTypeProjection data) = fullLoad st data :=
    ctFold_id _ _ hct_present
  have hrun2 : fullLoad (fullLoad st data) data =
      insertChokePointsCargoTypes (fullLoad st data) data := by
    show insertChokePointsCargoTypes
        (insertCargoTypes (insertChokePoints (fullLoad st data) (chokePointProjection data))
          (cargoTypeProjection data)) data = _
    rw [hcp_id, hct_id]
  rw [hrun2]
  exact ⟨rfl, rfl, rfl⟩

/-! ## logistics_data_importer_script.py, insert_countries_port_industries -/

/-- A stored row of the country_ports table (uuid and the natural key). -/
structure PortRow where
  uuid : Nat
  port_name : String
deriving DecidableEq, Repr

/-- A stored row of the industries table. -/
structure IndustryRow where
  uuid : Nat
  industry_name : String
deriving DecidableEq, Repr

/-- A stored row of the countries_port_industries junction table. -/
structure PortIndustryLink where
  port_id : Nat
  industry_id : Nat
deriving DecidableEq, Repr

/-- The store touched by insert_countries_port_industries.  nextUuid is
the common pool from which both uuid.uuid4() calls in the script and the
store's own key generation draw fresh, pairwise distinct identifiers. -/
structure PortsState where
  ports : List PortRow
  industries : List IndustryRow
  links : List PortIndustryLink
  nextUuid : Nat
deriving DecidableEq, Repr

/-- A row of ports_country.csv as consumed by
insert_countries_port_industries. -/
structure PortsCsvRow where
  port_name : String
  top1_industry : String
  top2_industry : String
  top3_industry : String
deriving DecidableEq, Repr

/-- The inner industry loop of insert_countries_port_industries
(logistics_data_importer_script.py lines 531-572), called with the
already-stripped industry name: skip empty or dash names; if the industry
exists, link the port to its stored uuid; otherwise the script draws
industry_uuid = str(uuid.uuid4()) (modelled as localUuid) but executes
insert(industries).values(industry_name=industry_name) without that uuid,
so the stored row receives a key generated by the store (modelled as the
next fresh value, storedUuid), and the junction row is then inserted with
the local uuid that was never stored. -/
def processIndustryLink (portUuid : Nat) (st : PortsState) (nm : String) : PortsState :=
  if nm == "" || nm == "-" then st
  else
    match st.industries.find? (fun r => r.industry_name == nm) with
    | some ind => { st with links := st.links ++ [{ port_id := portUuid, industry_id := ind.uuid }] }
    | none =>
      let localUuid := st.nextUuid
      let storedUuid := st.nextUuid + 1
      { st with
        industries := st.industries ++ [{ uuid := storedUuid, industry_name := nm }],
        links := st.links ++ [{ port_id := portUuid, industry_id := localUuid }],
        nextUuid := st.nextUuid + 2 }

/-- The per-row body of insert_countries_port_industries (lines 508-530):
strip the port name, look the port up, skip the row if absent, then run
the industry loop over the three stripped industry columns. -/
def insertCountriesPortIndustriesRow (st : PortsState) (row : PortsCsvRow) : PortsState :=
  match st.ports.find? (fun p => p.port_name == pyStrip row.port_name) with
  | none => st
  | some p =>
    [pyStrip row.top1_industry, pyStrip row.top2_industry, pyStrip row.top3_industry].foldl
      (processIndustryLink p.uuid) st

/-- insert_countries_port_industries (lines 491-572). -/
def insertCountriesPortIndustries (st : PortsState) (rows : List PortsCsvRow) : PortsState :=
  rows.foldl insertCountriesPortIndustriesRow st

/-- The C2 failing input: a store holding port P and no industries, and a
CSV row naming a new industry Steel for P. -/
def c2State : PortsState :=
  { ports := [{ uuid := 0, port_name := "P" }], industries := [], links := [], nextUuid := 1 }

/-- The C2 failing CSV row. -/
def c2Row : PortsCsvRow :=
  { port_name := "P", top1_industry := "Steel", top2_industry := "-", top3_industry := "-" }

/-- C2: evaluation at the failing input.  When the industry is not yet
stored, the junction row built immediately after resolving references the
locally generated uuid (1), while the industry row actually stored carries
a different store-generated uuid (2): the relationship row does not
reference the surrogate key stored for the entity, and the key the
resolver hands out on the insert path is never the stored one. -/
theorem c2_unstored_key_eval :
    (insertCountriesPortIndustries c2State [c2Row]).links =
      [{ port_id := 0, industry_id := 1 }] ∧
    (insertCountriesPortIndustries c2State [c2Row]).industries =
      [{ uuid := 2, industry_name := "Steel" }] ∧
    (insertCountriesPortIndustries c2State [c2Row]).industries.all
      (fun r => !(r.uuid == 1)) = true := by
  refine ⟨rfl, rfl, rfl⟩

/-! ## logistics_data_importer_script.py, insert_route_chokepoints -/

/-- A stored row of the routes table (uuid and the lookup key). -/
structure RouteRow where
  uuid : Nat
  route_name : String
deriving DecidableEq, Repr

/-- A stored row of the routes_choke_points junction table. -/
structure RouteChokePointLink where
  route_id : Nat
  choke_point_id : Nat
deriving DecidableEq, Repr

/-- The store touched by insert_route_chokepoints. -/
structure RoutesState where
  routes : List RouteRow
  chokePoints : List ChokePointRow
  links : List RouteChokePointLink
deriving DecidableEq, Repr

/-- The body of the chokepoint1..chokepoint10 loop of
insert_route_chokepoints (logistics_data_importer_script.py lines
401-438): a missing column (data.get returning None), an empty name, a
dash, or an all-space name is skipped; an unresolvable chokepoint is
skipped; otherwise the junction row is inserted with no prior lookup of
the (route_id, choke_point_id) tuple.  The uniq flag models whether the
store enforces a unique constraint on the tuple: when it does, the insert
raises IntegrityError, which lines 433-434 catch and print, so the row is
skipped and the loop continues; the script's own metadata for
routes_choke_points declares no such constraint, which uniq = false
models. -/
def insertRouteChokePointStep (uniq : Bool) (routeId : Nat) (st : RoutesState)
    (cpOpt : Option String) : RoutesState :=
  match cpOpt with
  | none => st
  | some nm =>
    if nm == "" || nm == "-" || pyIsSpace nm then st
    else
      match findChokePointUuid st.chokePoints nm with
      | none => st
      | some cpId =>
        if uniq && st.links.contains { route_id := routeId, choke_point_id := cpId } then st
        else { st with links := st.links ++ [{ route_id := routeId, choke_point_id := cpId }] }

/-- insert_route_chokepoints (lines 370-438): look the route up by its
untrimmed name, return doing nothing if absent, and otherwise run the
chokepoint loop. -/
def insertRouteChokepoints (uniq : Bool) (st : RoutesState) (routeName : String)
    (cps : List (Option String)) : RoutesState :=
  match st.routes.find? (fun r => r.route_name == routeName) with
  | none => st
  | some route => cps.foldl (insertRouteChokePointStep uniq route.uuid) st

/-- The concrete store of the C3 counterexample: one route, one
chokepoint, and the junction tuple linking them already present. -/
def c3State : RoutesState :=
  { routes := [{ uuid := 0, route_name := "R" }],
    chokePoints := [{ uuid := 1, chokepoint_name := "C", latitude := 0, longitude := 0 }],
    links := [{ route_id := 0, choke_point_id := 1 }] }

/-- C3 counterexample: the relationship loader does not first look up an
existing row matching the key tuple.  With the store as declared by the
script's own metadata (no unique constraint on routes_choke_points, so no
IntegrityError is raised), loading a row whose tuple is already present
inserts the tuple a second time instead of skipping it as a no-op. -/
theorem c3_counterexample :
    c3State.links = [{ route_id := 0, choke_point_id := 1 }] ∧
    (insertRouteChokepoints false c3State "R" [some "C"]).links =
      [{ route_id := 0, choke_point_id := 1 }, { route_id := 0, choke_point_id := 1 }] := by
  refine ⟨rfl, rfl⟩

theorem insertRouteChokePointStep_nodup (routeId : Nat) (st : RoutesState)
    (cpOpt : Option String) (h : st.links.Nodup) :
    (insertRouteChokePointStep true routeId st cpOpt).links.Nodup := by
  cases cpOpt with
  | none => exact h
  | some nm =>
    unfold insertRouteChokePointStep
    dsimp only
    by_cases hval : (nm == "" || nm == "-" || pyIsSpace nm) = true
    · rw [if_pos hval]
      exact h
    · rw [if_neg hval]
      cases hf : findChokePointUuid st.chokePoints nm with
      | none => exact h
      | some cpId =>
        by_cases hc : st.links.contains ({ route_id := routeId, choke_point_id := cpId } : RouteChokePointLink) = true
        · simp only [Bool.true_and, if_pos hc]
          exact h
        · simp only [Bool.true_and, if_neg hc]
          show (st.links ++ [({ route_id := routeId, choke_point_id := cpId } : RouteChokePointLink)]).Nodup
          refine List.Nodup.append h (List.nodup_singleton _) ?_
          rw [List.disjoint_singleton]
          intro hmem
          exact hc (List.elem_iff.mpr hmem)

theorem insertRouteChokepoints_fold_nodup (routeId : Nat) (cps : List (Option String)) :
    ∀ st : RoutesState, st.links.Nodup →
      (cps.foldl (insertRouteChokePointStep true routeId) st).links.Nodup := by
  induction cps with
  | nil => intro st h; exact h
  | cons c rest ih =>
    intro st h
    simp only [List.foldl_cons]
    exact ih _ (insertRouteChokePointStep_nodup routeId st c h)

/-- C3 amended: the logistics relationship loaders do not look the key
tuple up before inserting; they insert unconditionally and rely on
catching insert-time exceptions.  First conjunct: when the store enforces
uniqueness, the IntegrityError raised on a duplicate insert is caught and
treated as a skip, never aborting the loop, so a store without duplicate
tuples never acquires one.  Second conjunct: a uniqueness violation on an
individual chokepoint leaves the state unchanged for that chokepoint.
Third conjunct: the generic raw-materials insert_data_into_table, by
contrast, does perform the lookup-then-skip the claim describes whenever
unique columns are given and a stored row matches. -/
theorem c3_amended :
    (∀ (st : RoutesState) (routeName : String) (cps : List (Option String)),
      st.links.Nodup → (insertRouteChokepoints true st routeName cps).links.Nodup) ∧
    (∀ (routeId : Nat) (st : RoutesState) (nm : String) (cpId : Nat),
      (nm == "" || nm == "-" || pyIsSpace nm) = false →
      findChokePointUuid st.chokePoints nm = some cpId →
      st.links.contains { route_id := routeId, choke_point_id := cpId } = true →
      insertRouteChokePointStep true routeId st (some nm) = st) ∧
    (∀ (uniqueCols : List String) (tbl : List CleanRow) (row : RawRow) (vals : List String),
      uniqueCols.isEmpty = false →
      getUniqueVals (cleanedRowDict row) uniqueCols = Except.ok vals →
      tbl.any (fun stored => rowMatchesOn uniqueCols vals stored) = true →
      processRowRaw uniqueCols tbl row = Except.ok tbl) := by
  refine ⟨?_, ?_, ?_⟩
  · intro st routeName cps h
    unfold insertRouteChokepoints
    cases st.routes.find? (fun r => r.route_name == routeName) with
    | none => exact h
    | some route => exact insertRouteChokepoints_fold_nodup route.uuid cps st h
  · intro routeId st nm cpId hval hfind hcont
    unfold insertRouteChokePointStep
    dsimp only
    rw [if_neg (by simp [hval]), hfind]
    dsimp only
    rw [Bool.true_and, if_pos hcont]
  · intro uniqueCols tbl row vals hne hvals hmatch
    unfold processRowRaw
    simp [hne, hvals, hmatch]

/-- The already-linked store row of the c3_amended witness. -/
def c3RawRow : RawRow := [("industry_name", some "Steel")]

/-- Witness for c3_amended: with an enforcing store a duplicate tuple is
skipped and the no-duplicates invariant is kept on a concrete store, and
the raw-materials loader skips a concrete row whose key already exists. -/
theorem c3_amended_witness :
    (insertRouteChokepoints true c3State "R" [some "C"]).links.Nodup ∧
    insertRouteChokePointStep true 0 c3State (some "C") = c3State ∧
    processRowRaw ["industry_name"] [[("industry_name", "Steel")]] c3RawRow =
      Except.ok [[("industry_name", "Steel")]] :=
  ⟨c3_amended.1 c3State "R" [some "C"] (by decide),
   c3_amended.2.1 0 c3State "C" 1 rfl rfl rfl,
   c3_amended.2.2 ["industry_name"] [[("industry_name", "Steel")]] c3RawRow ["Steel"]
     rfl rfl rfl⟩

/-! ## logistics_data_importer_script.py, load_data_from_csv and
insert_ports_route_junction_table -/

/-- load_data_from_csv (logistics_data_importer_script.py lines 178-187):
read the CSV and dropna(how=all), dropping exactly the rows whose fields
are all missing.  A row is a list of nullable fields. -/
def loadDataFromCsv (rows : List (List (Option String))) : List (List (Option String)) :=
  rows.filter (fun r => !(r.all (fun v => v.isNone)))

/-- A row of route_choke_points_data.csv as consumed by
insert_ports_route_junction_table: the route name and the comma-separated
ports column. -/
structure RoutePortsRow where
  route_name : String
  ports : String
deriving DecidableEq, Repr

/-- A stored row of the routes_ports junction table. -/
structure RoutePortLink where
  route_id : Nat
  port_id : Nat
deriving DecidableEq, Repr

/-- The store touched by insert_ports_route_junction_table. -/
structure RoutesPortsState where
  routes : List RouteRow
  ports : List PortRow
  links : List RoutePortLink
deriving DecidableEq, Repr

/-- The inner port loop of insert_ports_route_junction_table (lines
731-762) for a resolved route: split the ports column on commas, strip
each port name, look the port up by the stripped name, skip it when
absent, and otherwise insert the junction row (IntegrityError and other
insert errors are caught and printed, and the declared metadata carries no
unique constraint, so the insert appends). -/
def rpStep (routeUuid : Nat) (st : RoutesPortsState) (pn : String) : RoutesPortsState :=
  match st.ports.find? (fun p => p.port_name == pyStrip pn) with
  | none => st
  | some p => { st with links := st.links ++ [{ route_id := routeUuid, port_id := p.uuid }] }

/-- The port loop of insert_ports_route_junction_table for a resolved
route: fold rpStep over the comma-split ports column. -/
def insertRoutePortsForRoute (routeUuid : Nat) (st : RoutesPortsState) (portsField : String) :
    RoutesPortsState :=
  (pySplitComma portsField).foldl (rpStep routeUuid) st

/-- The per-row body of insert_ports_route_junction_table (lines 714-762):
the route is looked up by row.route_name exactly as read from the CSV,
with no strip, and the row is skipped when the lookup fails; otherwise the
port loop runs. -/
def insertPortsRouteJunctionRow (st : RoutesPortsState) (row : RoutePortsRow) :
    RoutesPortsState :=
  match st.routes.find? (fun r => r.route_name == row.route_name) with
  | none => st
  | some route => insertRoutePortsForRoute route.uuid st row.ports

/-- insert_ports_route_junction_table over a data frame. -/
def insertPortsRouteJunction (st : RoutesPortsState) (rows : List RoutePortsRow) :
    RoutesPortsState :=
  rows.foldl insertPortsRouteJunctionRow st

/-- Refinement comparison definition following the claim's words: the same
junction load but with the route_name trimmed of surrounding whitespace
before it is used as the lookup key, as the claim says every string field
is. -/
def insertPortsRouteJunctionRowTrimmedKey (st : RoutesPortsState) (row : RoutePortsRow) :
    RoutesPortsState :=
  match st.routes.find? (fun r => r.route_name == pyStrip row.route_name) with
  | none => st
  | some route => insertRoutePortsForRoute route.uuid st row.ports

/-- The store of the C6 counterexample: a route named R and a port P. -/
def c6State : RoutesPortsState :=
  { routes := [{ uuid := 0, route_name := "R" }],
    ports := [{ uuid := 1, port_name := "P" }],
    links := [] }

/-- The C6 counterexample CSV row, whose route_name carries a trailing
space. -/
def c6Row : RoutePortsRow := { route_name := "R ", ports := "P" }

/-- C6 counterexample: route_name is used as a lookup key without
trimming.  On a row whose route_name has a trailing space, the loader as
written finds no route and inserts nothing, while the claim's
trimmed-before-use reading of the same load finds route R and inserts the
junction row: the two disagree, so not every string field is trimmed
before being used as a key. -/
theorem c6_counterexample :
    (insertPortsRouteJunctionRow c6State c6Row).links = [] ∧
    (insertPortsRouteJunctionRowTrimmedKey c6State c6Row).links =
      [{ route_id := 0, port_id := 1 }] ∧
    insertPortsRouteJunctionRow c6State c6Row ≠
      insertPortsRouteJunctionRowTrimmedKey c6State c6Row := by
  refine ⟨rfl, rfl, by decide⟩

/-- The junction row the port loop would append for one split port name,
given the ports table. -/
def rpLinkFor (routeUuid : Nat) (ports : List PortRow) (pn : String) : Option RoutePortLink :=
  (ports.find? (fun p => p.port_name == pyStrip pn)).map
    (fun p => { route_id := routeUuid, port_id := p.uuid })

theorem rpFold_spec (routeUuid : Nat) (pns : List String) :
    ∀ st : RoutesPortsState,
      (pns.foldl (rpStep routeUuid) st).ports = st.ports ∧
      (pns.foldl (rpStep routeUuid) st).links =
        st.links ++ pns.filterMap (rpLinkFor routeUuid st.ports) := by
  induction pns with
  | nil => intro st; exact ⟨rfl, by simp⟩
  | cons pn rest ih =>
    intro st
    simp only [List.foldl_cons]
    cases hf : st.ports.find? (fun p => p.port_name == pyStrip pn) with
    | none =>
      have hstep : rpStep routeUuid st pn = st := by
        unfold rpStep; rw [hf]
      rw [hstep]
      obtain ⟨hports, hlinks⟩ := ih st
      refine ⟨hports, ?_⟩
      rw [hlinks]
      have hnone : rpLinkFor routeUuid st.ports pn = none := by
        unfold rpLinkFor; rw [hf]; rfl
      simp [List.filterMap_cons, hnone]
    | some p =>
      have hstep : rpStep routeUuid st pn =
          { st with links := st.links ++ [{ route_id := routeUuid, port_id := p.uuid }] } := by
        unfold rpStep; rw [hf]
      rw [hstep]
      obtain ⟨hports, hlinks⟩ := ih { st with links := st.links ++ [{ route_id := routeUuid, port_id := p.uuid }] }
      refine ⟨hports, ?_⟩
      rw [hlinks]
      have hsome : rpLinkFor routeUuid st.ports pn =
          some { route_id := routeUuid, port_id := p.uuid } := by
        unfold rpLinkFor; rw [hf]; rfl
      simp [List.filterMap_cons, hsome]

/-- C6 amended: load_data_from_csv keeps exactly the rows having at least
one non-missing field (all-empty rows are filtered out), and in the
routes-ports junction load the port names are trimmed before being used
as lookup keys, but the route_name is used verbatim: a row whose
route_name matches no stored route exactly contributes nothing, even when
a route would match after trimming.  Likewise the chokepoint names of
insert_route_chokepoints are looked up untrimmed (findChokePointUuid is
applied to the raw column value there). -/
theorem c6_amended :
    (∀ (rows : List (List (Option String))) (r : List (Option String)),
      r ∈ loadDataFromCsv rows ↔ (r ∈ rows ∧ ∃ v ∈ r, v.isSome)) ∧
    (∀ (st : RoutesPortsState) (row : RoutePortsRow) (route : RouteRow),
      st.routes.find? (fun r => r.route_name == row.route_name) = some route →
      (insertPortsRouteJunctionRow st row).links =
        st.links ++ (pySplitComma row.ports).filterMap (rpLinkFor route.uuid st.ports)) ∧
    (∀ (st : RoutesPortsState) (row : RoutePortsRow),
      st.routes.find? (fun r => r.route_name == row.route_name) = none →
      insertPortsRouteJunctionRow st row = st) := by
  refine ⟨?_, ?_, ?_⟩
  · intro rows r
    unfold loadDataFromCsv
    rw [List.mem_filter]
    constructor
    · rintro ⟨hmem, hkeep⟩
      refine ⟨hmem, ?_⟩
      simp only [Bool.not_eq_true', List.all_eq_false] at hkeep
      obtain ⟨v, hv, hvn⟩ := hkeep
      refine ⟨v, hv, ?_⟩
      cases v with
      | none => simp at hvn
      | some w => rfl
    · rintro ⟨hmem, v, hv, hvs⟩
      refine ⟨hmem, ?_⟩
      simp only [Bool.not_eq_true', List.all_eq_false]
      refine ⟨v, hv, ?_⟩
      cases v with
      | none => simp at hvs
      | some w => simp
  · intro st row route hfind
    unfold insertPortsRouteJunctionRow
    rw [hfind]
    exact (rpFold_spec route.uuid (pySplitComma row.ports) st).2
  · intro st row hfind
    unfold insertPortsRouteJunctionRow
    rw [hfind]

/-- Witness for c6_amended on concrete inputs: a kept one-field row, a
resolved route whose spaced port name is still linked thanks to the strip,
and an unmatched spaced route name that is skipped. -/
theorem c6_amended_witness :
    ([some "x"] ∈ loadDataFromCsv [[some "x"], [none]] ↔
      ([some "x"] ∈ [[some "x"], [(none : Option String)]] ∧
        ∃ v ∈ [some "x"], v.isSome)) ∧
    (insertPortsRouteJunctionRow c6State { route_name := "R", ports := " P" }).links =
      c6State.links ++ (pySplitComma " P").filterMap (rpLinkFor 0 c6State.ports) ∧
    insertPortsRouteJunctionRow c6State c6Row = c6State :=
  ⟨c6_amended.1 [[some "x"], [none]] [some "x"],
   c6_amended.2.1 c6State { route_name := "R", ports := " P" }
     { uuid := 0, route_name := "R" } rfl,
   c6_amended.2.2 c6State c6Row rfl⟩

/-! ## logistics_data_importer_script.py, main -/

/-- The three CSV source files of main (lines 765-836). -/
inductive SourceFile
  | cargoCsv
  | routeCsv
  | portsCsv
deriving DecidableEq, Repr

/-- The load steps main runs, one constructor per called function. -/
inductive LoadStep
  | stepInsertChokePoints
  | stepInsertCargoTypes
  | stepInsertChokePointsCargoTypes
  | stepInsertRoutes
  | stepInsertRouteChokePoints
  | stepInsertPorts
  | stepInsertCountriesPortIndustries
  | stepInsertPortCargoType
  | stepInsertPortsRouteJunction
deriving DecidableEq, Repr

/-- The source file whose records each step consumes. -/
def stepFile : LoadStep → SourceFile
  | .stepInsertChokePoints => .cargoCsv
  | .stepInsertCargoTypes => .cargoCsv
  | .stepInsertChokePointsCargoTypes => .cargoCsv
  | .stepInsertRoutes => .routeCsv
  | .stepInsertRouteChokePoints => .routeCsv
  | .stepInsertPorts => .portsCsv
  | .stepInsertCountriesPortIndustries => .portsCsv
  | .stepInsertPortCargoType => .portsCsv
  | .stepInsertPortsRouteJunction => .routeCsv

/-- Whether a step is an entity load (a distinct entity projection into a
single table) rather than a relationship load. -/
def stepIsEntityLoad : LoadStep → Bool
  | .stepInsertChokePoints => true
  | .stepInsertCargoTypes => true
  | .stepInsertRoutes => true
  | .stepInsertPorts => true
  | _ => false

/-- The exact call sequence of main (lines 794-833): for the cargo file
insert_choke_points, insert_cargo_types, insert_choke_points_cargo_types;
for the route file insert_routes then
process_csv_insert_route_choke_point; for the ports file insert_ports,
insert_countries_port_industries, insert_port_cargo_type; and finally
insert_ports_route_junction_table on the route file's data. -/
def mainSteps : List LoadStep :=
  [.stepInsertChokePoints, .stepInsertCargoTypes, .stepInsertChokePointsCargoTypes,
   .stepInsertRoutes, .stepInsertRouteChokePoints,
   .stepInsertPorts, .stepInsertCountriesPortIndustries, .stepInsertPortCargoType,
   .stepInsertPortsRouteJunction]

theorem junctionRowsFor_skip (cps : List ChokePointRow) (cts : List CargoTypeRow)
    (r : CargoRow) (rest : List CargoRow)
    (h : findChokePointUuid cps (pyStrip r.primary_chokepoints) = none ∨
         findCargoTypeUuid cts (pyStrip r.vessel_composition_cargo_type) = none) :
    junctionRowsFor cps cts (r :: rest) = junctionRowsFor cps cts rest := by
  unfold junctionRowsFor
  rw [List.filterMap_cons]
  rcases h with h | h
  · rw [h]
  · rw [h]
    cases findChokePointUuid cps (pyStrip r.primary_chokepoints) <;> rfl

/-- C7: run driver ordering and non-fatal resolution failure.  First
conjunct: in main's call sequence, every step that precedes an entity load
of some source file and consumes the same file is itself an entity load,
so for each file all entity loads complete before any relationship load
for that file begins.  Second conjunct: in the relationship load, a CSV
row whose chokepoint or cargo type cannot be resolved contributes no
junction row and the remaining rows are still processed (the loop prints
and continues; the load function is total and never aborts). -/
theorem c7_run_driver :
    (∀ i j : Fin mainSteps.length, i < j →
      stepFile (mainSteps.get i) = stepFile (mainSteps.get j) →
      stepIsEntityLoad (mainSteps.get j) = true →
      stepIsEntityLoad (mainSteps.get i) = true) ∧
    (∀ (cps : List ChokePointRow) (cts : List CargoTypeRow) (r : CargoRow)
        (rest : List CargoRow),
      (findChokePointUuid cps (pyStrip r.primary_chokepoints) = none ∨
       findCargoTypeUuid cts (pyStrip r.vessel_composition_cargo_type) = none) →
      junctionRowsFor cps cts (r :: rest) = junctionRowsFor cps cts rest) :=
  ⟨by decide, fun cps cts r rest h => junctionRowsFor_skip cps cts r rest h⟩

/-- The unresolvable row of the c7_run_driver witness. -/
def c7Row : CargoRow :=
  { primary_chokepoints := "Ghost", latitude := some 0, longitude := some 0,
    vessel_composition_cargo_type := "Oil",
    average_annual_number_of_transit_calls := "1",
    estimated_vessel_numbers_by_cargo_type := "1",
    vessel_composition_pct := "1" }

/-- Witness for c7_run_driver: the first two cargo-file steps at concrete
indices, and a concrete unresolvable row skipped by the junction load. -/
theorem c7_run_driver_witness :
    stepIsEntityLoad (mainSteps.get ⟨0, by decide⟩) = true ∧
    junctionRowsFor [] [] (c7Row :: []) = junctionRowsFor [] [] [] :=
  ⟨c7_run_driver.1 ⟨0, by decide⟩ ⟨1, by decide⟩ (by decide) (by decide) (by decide),
   c7_run_driver.2 [] [] c7Row [] (Or.inl rfl)⟩
